import Mathlib

/-!
Verification development for the Fabrik local content-addressed artifact
cache exposed through its C API.  The repository ships the C usage example
(`src/examples/c/example.c`); the storage library behind `fabrik.h` is not
part of the sources, so its operations are modelled from the specification
(identifier validation, path-mapped storage as a key/value store, the
status-code contract of put/exists/get/delete).  Concrete data — the test
hash, the test payload, the buffer size, the null-terminating write — are
taken verbatim from the example file.
-/

/-- Modelled from the spec: the closed status-code enumeration of the C API
(`OK`, `NOT_FOUND`, `INVALID_KEY`, `IO_ERROR`, `BUFFER_TOO_SMALL`,
`INTERNAL_ERROR`); the storage library defining the numeric constants is
not under `src/`. -/
inductive FabrikStatus where
  | ok
  | notFound
  | invalidKey
  | ioError
  | bufferTooSmall
  | internalError
deriving DecidableEq, Repr

/-- Modelled from the spec: a character is a hex digit (`0-9`, `a-f`, `A-F`);
part of the Identifier Validator, which is not under `src/`. -/
def is_hex_char (c : Char) : Bool :=
  (decide ('0' ≤ c) && decide (c ≤ '9')) ||
  (decide ('a' ≤ c) && decide (c ≤ 'f')) ||
  (decide ('A' ≤ c) && decide (c ≤ 'F'))

/-- Modelled from the spec: the Identifier Validator accepts exactly the
strings of the expected fixed length whose characters are all hex digits.
The expected length is 64, the length of the identifier the example program
stores and retrieves successfully.  The validator itself is not under
`src/`. -/
def validIdentifier (s : String) : Bool :=
  s.length == 64 && s.toList.all is_hex_char

/-- Modelled from the spec: the validator case-normalizes (lowercases) a
valid identifier into its canonical internal form before it is used as a
key; the validator is not under `src/`. -/
def canonicalize (s : String) : String :=
  String.mk (s.toList.map Char.toLower)

/-- Modelled from the spec: one open cache instance, an opaque handle owning
the root path and the stored artifacts.  The on-disk sharded layout is
abstracted to a finite association from canonical identifiers to byte
sequences (bytes as naturals), since the Storage Engine is not under
`src/`. -/
structure Cache where
  root : String
  store : List (String × List Nat)
deriving DecidableEq, Repr

/-- Removes every binding of key `k` from an association list; the model of
deleting the artifact file of an identifier. -/
def eraseKey (l : List (String × List Nat)) (k : String) : List (String × List Nat) :=
  l.filter (fun p => p.1 != k)

/-- Modelled from the spec: `fabrik_cache_init` opens a cache at a root path
with no artifacts stored yet (an empty path); the Handle Lifecycle Manager
is not under `src/`. -/
def fabrik_cache_init (root : String) : Cache :=
  ⟨root, []⟩

/-- Modelled from the spec: `fabrik_cache_put` validates the identifier
(`INVALID_KEY` on failure, store untouched), then durably stores the bytes
under the canonical key, overwriting any previous binding (last write
wins).  The Storage Engine is not under `src/`. -/
def fabrik_cache_put (c : Cache) (id : String) (data : List Nat) :
    FabrikStatus × Cache :=
  if validIdentifier id then
    let k := canonicalize id
    (FabrikStatus.ok, ⟨c.root, (k, data) :: eraseKey c.store k⟩)
  else
    (FabrikStatus.invalidKey, c)

/-- Modelled from the spec: `fabrik_cache_exists` validates the identifier
(`INVALID_KEY` on failure, out-parameter left `false` as the example
initializes it), then probes for existence without reading payload bytes.
The Storage Engine is not under `src/`. -/
def fabrik_cache_exists (c : Cache) (id : String) : FabrikStatus × Bool :=
  if validIdentifier id then
    (FabrikStatus.ok, (List.lookup (canonicalize id) c.store).isSome)
  else
    (FabrikStatus.invalidKey, false)

/-- The result of a get across the boundary: status code, the caller's
buffer after the call, and the bytes-written out-parameter. -/
structure GetResult where
  status : FabrikStatus
  buffer : List Nat
  bytes_read : Nat
deriving DecidableEq, Repr

/-- Copies the payload into the front of the caller's buffer, leaving the
bytes past the payload length as they were; the model of the single-shot
copy into a caller-owned buffer. -/
def write_bytes (buf data : List Nat) : List Nat :=
  data ++ buf.drop data.length

/-- Modelled from the spec: `fabrik_cache_get` validates the identifier
(`INVALID_KEY`), fails with `NOT_FOUND` when the identifier is absent,
signals `BUFFER_TOO_SMALL` without touching the buffer when the stored
payload exceeds the buffer's capacity, and otherwise copies the payload and
reports its length.  The buffer's length is its declared capacity.  The
Storage Engine is not under `src/`. -/
def fabrik_cache_get (c : Cache) (id : String) (buf : List Nat) : GetResult :=
  if validIdentifier id then
    match List.lookup (canonicalize id) c.store with
    | none => ⟨FabrikStatus.notFound, buf, 0⟩
    | some data =>
      if buf.length < data.length then
        ⟨FabrikStatus.bufferTooSmall, buf, 0⟩
      else
        ⟨FabrikStatus.ok, write_bytes buf data, data.length⟩
  else
    ⟨FabrikStatus.invalidKey, buf, 0⟩

/-- Modelled from the spec: `fabrik_cache_delete` validates the identifier
(`INVALID_KEY`), removes a present artifact (`OK`), and fails with
`NOT_FOUND` on an absent one (the delete-of-absent policy the example's
existence-check-first flow suggests).  The Storage Engine is not under
`src/`. -/
def fabrik_cache_delete (c : Cache) (id : String) : FabrikStatus × Cache :=
  if validIdentifier id then
    let k := canonicalize id
    if (List.lookup k c.store).isSome then
      (FabrikStatus.ok, ⟨c.root, eraseKey c.store k⟩)
    else
      (FabrikStatus.notFound, c)
  else
    (FabrikStatus.invalidKey, c)

/-- The payload the example stores: the bytes of
`"Hello from Fabrik C API!"` (from `src/examples/c/example.c`). -/
def test_data : List Nat :=
  "Hello from Fabrik C API!".toList.map Char.toNat

/-- The content identifier the example stores under
(from `src/examples/c/example.c`). -/
def test_hash : String :=
  "abc123def456789abc123def456789abc123def456789abc123def456789abc1"

/-- The example's 1024-byte retrieval buffer, zero-initialized in the
model. -/
def example_buffer : List Nat :=
  List.replicate 1024 0

/-- The example's cache right after a successful init at its root path. -/
def example_cache0 : Cache :=
  fabrik_cache_init "/tmp/fabrik-c-example"

/-- The example's cache after storing the test payload under the test
hash. -/
def example_cache1 : Cache :=
  (fabrik_cache_put example_cache0 test_hash test_data).2

/-- The example's cache after the subsequent delete of the test hash. -/
def example_cache2 : Cache :=
  (fabrik_cache_delete example_cache1 test_hash).2

/-- From the example source: the null-terminating write
`buffer[bytes_read] = 0` with its bounds condition made explicit — the
write happens only when the index is within the buffer's bounds. -/
def null_terminate (buf : List Nat) (i : Nat) : Option (List Nat) :=
  if i < buf.length then some (buf.set i 0) else none

-- Helper lemmas about the association-list store.

theorem lookup_eraseKey (l : List (String × List Nat)) (k : String) :
    List.lookup k (eraseKey l k) = none := by
  induction l with
  | nil => rfl
  | cons p t ih =>
    simp only [eraseKey] at ih ⊢
    by_cases h : p.1 = k
    · have hb : (p.1 != k) = false := by simp [h]
      simpa [List.filter_cons, hb] using ih
    · have hb : (p.1 != k) = true := by simp [h]
      have hk : (k == p.1) = false := by
        simp [beq_eq_false_iff_ne, Ne.symm h]
      simpa [List.filter_cons, hb, List.lookup, hk] using ih

theorem take_write_bytes (buf data : List Nat) :
    (write_bytes buf data).take data.length = data := by
  simp [write_bytes, List.take_left]

theorem length_write_bytes (buf data : List Nat)
    (h : data.length ≤ buf.length) :
    (write_bytes buf data).length = buf.length := by
  simp [write_bytes]
  omega

set_option maxRecDepth 100000

/-- Claim C1: for every valid identifier and every byte payload, a get of the
identifier after a successful put of the payload under it (into a buffer of
sufficient capacity) succeeds and returns exactly the payload, byte for
byte. -/
theorem get_after_put_roundtrip (c : Cache) (id : String) (data buf : List Nat)
    (hv : validIdentifier id = true) (hcap : data.length ≤ buf.length) :
    (fabrik_cache_put c id data).1 = FabrikStatus.ok ∧
    (fabrik_cache_get (fabrik_cache_put c id data).2 id buf).status = FabrikStatus.ok ∧
    (fabrik_cache_get (fabrik_cache_put c id data).2 id buf).bytes_read = data.length ∧
    (fabrik_cache_get (fabrik_cache_put c id data).2 id buf).buffer.take data.length = data := by
  have hnl : ¬ (buf.length < data.length) := Nat.not_lt.mpr hcap
  simp [fabrik_cache_put, fabrik_cache_get, hv, List.lookup, hnl, take_write_bytes]

/-- Witness for C1 at the example's identifier and a concrete payload. -/
theorem get_after_put_roundtrip_witness :
    (fabrik_cache_put example_cache0 test_hash [1, 2, 3]).1 = FabrikStatus.ok ∧
    (fabrik_cache_get (fabrik_cache_put example_cache0 test_hash [1, 2, 3]).2 test_hash
      [0, 0, 0, 0]).status = FabrikStatus.ok ∧
    (fabrik_cache_get (fabrik_cache_put example_cache0 test_hash [1, 2, 3]).2 test_hash
      [0, 0, 0, 0]).bytes_read = [1, 2, 3].length ∧
    (fabrik_cache_get (fabrik_cache_put example_cache0 test_hash [1, 2, 3]).2 test_hash
      [0, 0, 0, 0]).buffer.take [1, 2, 3].length = [1, 2, 3] :=
  get_after_put_roundtrip example_cache0 test_hash [1, 2, 3] [0, 0, 0, 0]
    (by decide) (by decide)

/-- Claim C2: the existence out-parameter is false on a freshly initialized
cache for every identifier, false immediately after a successful delete of
the identifier, and true immediately after a successful put of it. -/
theorem exists_lifecycle (root id : String) (data : List Nat) (c : Cache) :
    (fabrik_cache_exists (fabrik_cache_init root) id).2 = false ∧
    ((fabrik_cache_delete c id).1 = FabrikStatus.ok →
      (fabrik_cache_exists (fabrik_cache_delete c id).2 id).2 = false) ∧
    ((fabrik_cache_put c id data).1 = FabrikStatus.ok →
      (fabrik_cache_exists (fabrik_cache_put c id data).2 id).2 = true) := by
  refine ⟨?_, ?_, ?_⟩
  · by_cases hv : validIdentifier id <;>
      simp [fabrik_cache_exists, fabrik_cache_init, hv, List.lookup]
  · intro h
    by_cases hv : validIdentifier id
    · by_cases hp : (List.lookup (canonicalize id) c.store).isSome
      · simp [fabrik_cache_delete, hv, hp, fabrik_cache_exists, lookup_eraseKey]
      · simp [fabrik_cache_delete, hv, hp] at h
    · simp [fabrik_cache_delete, hv] at h
  · intro h
    by_cases hv : validIdentifier id
    · simp [fabrik_cache_put, hv, fabrik_cache_exists, List.lookup]
    · simp [fabrik_cache_put, hv] at h

/-- Witness for C2: after the example's successful delete the identifier no
longer exists, and after the example's successful put it does. -/
theorem exists_lifecycle_witness :
    (fabrik_cache_exists (fabrik_cache_delete example_cache1 test_hash).2 test_hash).2 = false ∧
    (fabrik_cache_exists (fabrik_cache_put example_cache0 test_hash test_data).2 test_hash).2 = true :=
  ⟨(exists_lifecycle "/tmp/fabrik-c-example" test_hash test_data example_cache1).2.1 (by decide),
   (exists_lifecycle "/tmp/fabrik-c-example" test_hash test_data example_cache0).2.2 (by decide)⟩

/-- Claim C3: a malformed identifier (wrong length or non-hex characters)
makes every operation return `INVALID_KEY` while leaving the store, the
caller's buffer and the out-parameters unchanged. -/
theorem invalid_key_rejected (c : Cache) (id : String) (data buf : List Nat)
    (hv : validIdentifier id = false) :
    fabrik_cache_put c id data = (FabrikStatus.invalidKey, c) ∧
    fabrik_cache_exists c id = (FabrikStatus.invalidKey, false) ∧
    fabrik_cache_get c id buf = ⟨FabrikStatus.invalidKey, buf, 0⟩ ∧
    fabrik_cache_delete c id = (FabrikStatus.invalidKey, c) := by
  simp [fabrik_cache_put, fabrik_cache_exists, fabrik_cache_get,
    fabrik_cache_delete, hv]

/-- Witness for C3 at the malformed identifier the example uses. -/
theorem invalid_key_rejected_witness :
    fabrik_cache_put example_cache0 "nonexistent" test_data =
      (FabrikStatus.invalidKey, example_cache0) ∧
    fabrik_cache_exists example_cache0 "nonexistent" = (FabrikStatus.invalidKey, false) ∧
    fabrik_cache_get example_cache0 "nonexistent" example_buffer =
      ⟨FabrikStatus.invalidKey, example_buffer, 0⟩ ∧
    fabrik_cache_delete example_cache0 "nonexistent" =
      (FabrikStatus.invalidKey, example_cache0) :=
  invalid_key_rejected example_cache0 "nonexistent" test_data example_buffer (by decide)

/-- Claim C4 counterexample: in the example's final step, getting the key
`"nonexistent"` does not return `NOT_FOUND` — the key is malformed (11
characters, non-hex), so the validator rejects it with `INVALID_KEY`
before the store is consulted. -/
theorem get_nonexistent_counterexample :
    (fabrik_cache_get example_cache2 "nonexistent" example_buffer).status ≠
      FabrikStatus.notFound := by
  decide

/-- Claim C4 (amended): a get of a valid identifier that is not stored
returns `NOT_FOUND`; the example's key `"nonexistent"` is malformed and
returns `INVALID_KEY` instead. -/
theorem get_absent_not_found (c : Cache) (id : String) (buf : List Nat)
    (hv : validIdentifier id = true)
    (habs : List.lookup (canonicalize id) c.store = none) :
    (fabrik_cache_get c id buf).status = FabrikStatus.notFound ∧
    (fabrik_cache_get example_cache2 "nonexistent" example_buffer).status =
      FabrikStatus.invalidKey := by
  constructor
  · simp [fabrik_cache_get, hv, habs]
  · decide

/-- Witness for C4 (amended): after the example's delete, the valid test
identifier is absent and get returns `NOT_FOUND`. -/
theorem get_absent_not_found_witness :
    (fabrik_cache_get example_cache2 test_hash example_buffer).status =
      FabrikStatus.notFound ∧
    (fabrik_cache_get example_cache2 "nonexistent" example_buffer).status =
      FabrikStatus.invalidKey :=
  get_absent_not_found example_cache2 test_hash example_buffer (by decide) (by decide)

/-- Claim C5: a get of a stored artifact into a buffer of capacity smaller
than the stored payload length returns `BUFFER_TOO_SMALL` and leaves the
caller's buffer exactly as it was — in particular no byte past its declared
capacity is written. -/
theorem get_buffer_too_small (c : Cache) (id : String) (buf data : List Nat)
    (hv : validIdentifier id = true)
    (hstored : List.lookup (canonicalize id) c.store = some data)
    (hsmall : buf.length < data.length) :
    (fabrik_cache_get c id buf).status = FabrikStatus.bufferTooSmall ∧
    (fabrik_cache_get c id buf).buffer = buf ∧
    (fabrik_cache_get c id buf).buffer.length = buf.length := by
  simp [fabrik_cache_get, hv, hstored, hsmall]

/-- Witness for C5: a 10-byte buffer is too small for the example's 24-byte
stored payload. -/
theorem get_buffer_too_small_witness :
    (fabrik_cache_get example_cache1 test_hash (List.replicate 10 0)).status =
      FabrikStatus.bufferTooSmall ∧
    (fabrik_cache_get example_cache1 test_hash (List.replicate 10 0)).buffer =
      List.replicate 10 0 ∧
    (fabrik_cache_get example_cache1 test_hash (List.replicate 10 0)).buffer.length =
      (List.replicate 10 0 : List Nat).length :=
  get_buffer_too_small example_cache1 test_hash (List.replicate 10 0) test_data
    (by decide) (by decide) (by decide)

/-- Claim C6 counterexample: in the demonstrated scenario the get after the
put does not report 25 bytes — the stored payload
`"Hello from Fabrik C API!"` is 24 bytes long. -/
theorem example_scenario_counterexample :
    (fabrik_cache_get example_cache1 test_hash example_buffer).bytes_read ≠ 25 := by
  decide

/-- Claim C6 (amended): in the demonstrated scenario — init at an empty
path, put of `"Hello from Fabrik C API!"` under the example hash — the
subsequent get returns the 24-byte payload unchanged, then delete succeeds,
the identifier no longer exists, and get on the same key returns
`NOT_FOUND`. -/
theorem example_scenario :
    (fabrik_cache_put example_cache0 test_hash test_data).1 = FabrikStatus.ok ∧
    fabrik_cache_exists example_cache1 test_hash = (FabrikStatus.ok, true) ∧
    (fabrik_cache_get example_cache1 test_hash example_buffer).status = FabrikStatus.ok ∧
    (fabrik_cache_get example_cache1 test_hash example_buffer).bytes_read = 24 ∧
    (fabrik_cache_get example_cache1 test_hash example_buffer).buffer.take 24 = test_data ∧
    (fabrik_cache_delete example_cache1 test_hash).1 = FabrikStatus.ok ∧
    fabrik_cache_exists example_cache2 test_hash = (FabrikStatus.ok, false) ∧
    (fabrik_cache_get example_cache2 test_hash example_buffer).status = FabrikStatus.notFound := by
  decide

/-- Claim C7 counterexample: the content identifier the example stores under
is not 66 characters long. -/
theorem test_hash_counterexample : test_hash.length ≠ 66 := by
  decide

/-- Claim C7 (amended): the content identifier used by the example program
is a 64-character hex value, matching the fixed identifier length the
Identifier Validator enforces before any storage operation proceeds. -/
theorem test_hash_valid_64 :
    test_hash.length = 64 ∧ validIdentifier test_hash = true := by
  decide

/-- Claim C8: re-putting a valid identifier that already holds a payload
with different bytes succeeds, and a subsequent get (into a buffer of
sufficient capacity) returns the newest bytes — last write wins. -/
theorem put_overwrite_last_write_wins (c : Cache) (id : String)
    (a b buf : List Nat) (hv : validIdentifier id = true) (hne : a ≠ b)
    (hcap : b.length ≤ buf.length) :
    (fabrik_cache_put (fabrik_cache_put c id a).2 id b).1 = FabrikStatus.ok ∧
    (fabrik_cache_get (fabrik_cache_put (fabrik_cache_put c id a).2 id b).2 id buf).status =
      FabrikStatus.ok ∧
    (fabrik_cache_get (fabrik_cache_put (fabrik_cache_put c id a).2 id b).2 id buf).bytes_read =
      b.length ∧
    (fabrik_cache_get (fabrik_cache_put (fabrik_cache_put c id a).2 id b).2 id buf).buffer.take
      b.length = b := by
  have hnl : ¬ (buf.length < b.length) := Nat.not_lt.mpr hcap
  simp [fabrik_cache_put, fabrik_cache_get, hv, List.lookup, hnl, take_write_bytes]

/-- Witness for C8 at the example's identifier with two different concrete
payloads. -/
theorem put_overwrite_last_write_wins_witness :
    (fabrik_cache_put (fabrik_cache_put example_cache0 test_hash [1]).2 test_hash [2, 3]).1 =
      FabrikStatus.ok ∧
    (fabrik_cache_get (fabrik_cache_put (fabrik_cache_put example_cache0 test_hash [1]).2
      test_hash [2, 3]).2 test_hash [0, 0, 0]).status = FabrikStatus.ok ∧
    (fabrik_cache_get (fabrik_cache_put (fabrik_cache_put example_cache0 test_hash [1]).2
      test_hash [2, 3]).2 test_hash [0, 0, 0]).bytes_read = [2, 3].length ∧
    (fabrik_cache_get (fabrik_cache_put (fabrik_cache_put example_cache0 test_hash [1]).2
      test_hash [2, 3]).2 test_hash [0, 0, 0]).buffer.take [2, 3].length = [2, 3] :=
  put_overwrite_last_write_wins example_cache0 test_hash [1] [2, 3] [0, 0, 0]
    (by decide) (by decide) (by decide)

/-- Claim C10: in the example, after the successful get of the 24-byte
stored payload into the 1024-byte buffer, the bytes-written count is
strictly below 1024, so the null-terminating write `buffer[bytes_read]`
stays in bounds; in general that write is in bounds exactly when the
reported count is strictly below the buffer's capacity. -/
theorem null_terminate_in_bounds :
    (fabrik_cache_get example_cache1 test_hash example_buffer).bytes_read < 1024 ∧
    (null_terminate (fabrik_cache_get example_cache1 test_hash example_buffer).buffer
      (fabrik_cache_get example_cache1 test_hash example_buffer).bytes_read).isSome = true ∧
    (∀ (buf : List Nat) (i : Nat),
      (null_terminate buf i).isSome = true ↔ i < buf.length) := by
  refine ⟨by decide, by decide, ?_⟩
  intro buf i
  by_cases h : i < buf.length <;> simp [null_terminate, h]

/-- Witness for C10: the general bounds condition instantiated at the
example's buffer and the reported 24-byte count. -/
theorem null_terminate_in_bounds_witness :
    (null_terminate example_buffer 24).isSome = true ↔ 24 < example_buffer.length :=
  null_terminate_in_bounds.2.2 example_buffer 24
